import Mathlib

/-
Verification of the Hackster MCP/A2A/ACP demo repository.

The development shallowly embeds the two Python source files:

* `MCPServer_HomeAutomation.py` — the home-automation capability server:
  a device table (light, thermostat, door lock), a bounded event log, and
  the four mutating tools (`control_light`, `set_temperature`,
  `control_door_lock`, `activate_scene`).  Python floats are modelled as
  exact rationals; `round(x, 1)` is modelled as round-half-to-even at one
  decimal place (Python 3 semantics).  Wall-clock timestamps are omitted
  from log entries — no property under study inspects them.

* `MCPClient_GradioUI.py` — the Gradio client: the module-level globals
  (`agent`, `mcp_server`, `server_process`, `previous_result`,
  `current_thread_id`) become a `ClientState` record, the async lifecycle
  functions become state transformers, and the black-box agent runner is a
  function parameter.  A ghost list of live child process ids tracks which
  spawned server processes have not been terminated.
-/

namespace HomeAutomation

/-- One entry of the `living_room_light` slot of the `DEVICES` dict. -/
structure Light where
  name : String
  state : String
  brightness : ℤ
deriving DecidableEq

/-- The `thermostat` slot of the `DEVICES` dict (floats as exact rationals). -/
structure Thermostat where
  name : String
  temperature : ℚ
  target_temperature : ℚ
deriving DecidableEq

/-- The `front_door` slot of the `DEVICES` dict. -/
structure DoorLock where
  name : String
  state : String
deriving DecidableEq

/-- The whole `DEVICES` dict.  The constant `"type"` fields are dropped:
they are only read by the `list_devices` rendering, which no property
under study concerns. -/
structure Devices where
  living_room_light : Light
  thermostat : Thermostat
  front_door : DoorLock
deriving DecidableEq

/-- One `EVENT_LOG` entry; the wall-clock `timestamp` field is omitted. -/
structure Event where
  device : String
  action : String
deriving DecidableEq

/-- The mutable server state: the device table plus the event log. -/
structure ServerState where
  devices : Devices
  eventLog : List Event
deriving DecidableEq

/-- Initial `DEVICES` contents. -/
def initialDevices : Devices :=
  { living_room_light := { name := "Living Room Light", state := "off", brightness := 50 }
    thermostat := { name := "Home Thermostat", temperature := 22, target_temperature := 22 }
    front_door := { name := "Front Door Lock", state := "locked" } }

/-- Initial server state: initial devices, empty `EVENT_LOG`. -/
def initialState : ServerState :=
  { devices := initialDevices, eventLog := [] }

/-- The name lookup `DEVICES.get(device_id, {}).get("name", device_id)` in
`log_event`: the device's display name, falling back to the raw id for keys
not in the table (the `"scene_control"` case). -/
def deviceName (devices : Devices) (device_id : String) : String :=
  if device_id = "living_room_light" then devices.living_room_light.name
  else if device_id = "thermostat" then devices.thermostat.name
  else if device_id = "front_door" then devices.front_door.name
  else device_id

/-- The event record built by `log_event` (timestamp omitted). -/
def mkEvent (devices : Devices) (device_id action : String) : Event :=
  { device := deviceName devices device_id, action := action }

/-- `log_event`: append the event, then `EVENT_LOG.pop(0)` when the length
exceeds 10 ("keep only last 10 events"). -/
def log_event (devices : Devices) (log : List Event) (device_id action : String) :
    List Event :=
  if (log ++ [mkEvent devices device_id action]).length > 10 then
    (log ++ [mkEvent devices device_id action]).drop 1
  else
    log ++ [mkEvent devices device_id action]

/-- Python `round-half-to-even` on an exact rational. -/
def roundHalfEven (q : ℚ) : ℤ :=
  let f := Int.floor q
  if q - f < 1/2 then f
  else if q - f > 1/2 then f + 1
  else if f % 2 = 0 then f else f + 1

/-- Python `round(x, 1)`: round to one decimal place. -/
def round1 (q : ℚ) : ℚ := (roundHalfEven (q * 10) : ℚ) / 10

/-- Rendering of a Python number inside an f-string.  No property under
study inspects these numeric fragments, so exact float formatting
(`"25.0"` versus `"25"`) is abstracted. -/
def pyNum (q : ℚ) : String := toString q

/-- The `Literal["on", "off", "toggle"]` argument of `control_light`. -/
inductive LightAction
  | on
  | off
  | toggle
deriving DecidableEq

/-- The rejection string of `control_light`. -/
def brightnessError : String := "❌ Error: Brightness must be between 0 and 100"

/-- Body of `control_light` after the brightness guard: apply the action,
force the light off when `brightness == 0`, log, and build the reply.
`device` already carries the updated brightness when one was supplied. -/
def control_light_go (s : ServerState) (device : Light) (action : LightAction)
    (brightness : Option ℤ) : ServerState × String :=
  let device := match action with
    | .on => { device with state := "on" }
    | .off => { device with state := "off" }
    | .toggle => { device with state := if device.state = "off" then "on" else "off" }
  -- If brightness is 0, force the light off regardless of action
  let device := if brightness = some 0 then { device with state := "off" } else device
  let devices := { s.devices with living_room_light := device }
  let log := log_event devices s.eventLog "living_room_light"
    ("Light turned " ++ device.state ++
      (if device.state = "on" then " at " ++ toString device.brightness ++ "%" else ""))
  ({ devices := devices, eventLog := log },
   "✅ Living Room Light is now " ++ device.state ++
     (if device.state = "on" then " at " ++ toString device.brightness ++ "% brightness"
      else ""))

/-- `control_light`: validate the optional brightness first (rejecting
out-of-range values before any mutation), then run the body. -/
def control_light (s : ServerState) (action : LightAction) (brightness : Option ℤ) :
    ServerState × String :=
  match brightness with
  | some b =>
    if 0 ≤ b ∧ b ≤ 100 then
      control_light_go s { s.devices.living_room_light with brightness := b } action (some b)
    else
      (s, brightnessError)
  | none => control_light_go s s.devices.living_room_light action none

/-- The rejection string of `set_temperature`. -/
def temperatureError : String := "❌ Error: Temperature must be between 16°C and 30°C"

/-- `set_temperature`: reject targets outside 16–30 °C; otherwise set the
target and move the current temperature 20% of the gap, rounded to one
decimal place, then log. -/
def set_temperature (s : ServerState) (target_temperature : ℚ) : ServerState × String :=
  if ¬(16 ≤ target_temperature ∧ target_temperature ≤ 30) then
    (s, temperatureError)
  else
    let device := s.devices.thermostat
    let old_target := device.target_temperature
    let device := { device with target_temperature := target_temperature }
    -- Simulate gradual temperature change
    let temp_diff := target_temperature - device.temperature
    let device := { device with temperature := round1 (device.temperature + temp_diff * (2/10)) }
    let devices := { s.devices with thermostat := device }
    let log := log_event devices s.eventLog "thermostat"
      ("Temperature set to " ++ pyNum target_temperature ++ "°C")
    ({ devices := devices, eventLog := log },
     "🌡️ Thermostat set to " ++ pyNum target_temperature ++ "°C (was " ++
       pyNum old_target ++ "°C)\nCurrent temperature: " ++ pyNum device.temperature ++ "°C")

/-- The `Literal["lock", "unlock"]` argument of `control_door_lock`. -/
inductive LockAction
  | lock
  | unlock
deriving DecidableEq

/-- The raw string of a `LockAction` (the `{action}` f-string fragment). -/
def lockActionStr : LockAction → String
  | .lock => "lock"
  | .unlock => "unlock"

/-- `control_door_lock`: set the lock state, log, reply. -/
def control_door_lock (s : ServerState) (action : LockAction) : ServerState × String :=
  let device := s.devices.front_door
  let device := { device with state := match action with
    | .lock => "locked"
    | .unlock => "unlocked" }
  let devices := { s.devices with front_door := device }
  let log := log_event devices s.eventLog "front_door"
    ("Door " ++ lockActionStr action ++ "ed")
  ({ devices := devices, eventLog := log }, "🚪 Front door is now " ++ device.state)

/-- The `Literal["evening", "morning", "away"]` argument of `activate_scene`. -/
inductive Scene
  | evening
  | morning
  | away
deriving DecidableEq

/-- The raw string of a `Scene` (the `{scene}` f-string fragment). -/
def sceneStr : Scene → String
  | .evening => "evening"
  | .morning => "morning"
  | .away => "away"

/-- Device updates and action descriptions of each scene preset. -/
def sceneEffect (d : Devices) : Scene → Devices × List String
  | .evening =>
    ({ d with living_room_light := { d.living_room_light with state := "on", brightness := 70 }
              thermostat := { d.thermostat with target_temperature := 19 }
              front_door := { d.front_door with state := "locked" } },
     ["Living room light on at 70%", "Temperature set to 19°C", "Front door locked"])
  | .morning =>
    ({ d with living_room_light := { d.living_room_light with state := "on", brightness := 90 }
              thermostat := { d.thermostat with target_temperature := 23 }
              front_door := { d.front_door with state := "unlocked" } },
     ["Living room light on at 90%", "Temperature set to 23°C", "Front door unlocked"])
  | .away =>
    ({ d with living_room_light := { d.living_room_light with state := "off" }
              thermostat := { d.thermostat with target_temperature := 15 }
              front_door := { d.front_door with state := "locked" } },
     ["Light turned off", "Temperature lowered to 15°C", "Front door locked"])

/-- `activate_scene`: apply the preset across the devices, then emit one
`"scene_control"` log entry and the summary reply. -/
def activate_scene (s : ServerState) (scene : Scene) : ServerState × String :=
  let de := sceneEffect s.devices scene
  let devices := de.1
  let actions := de.2
  let log := log_event devices s.eventLog "scene_control"
    ("Scene \x27" ++ sceneStr scene ++ "\x27 activated")
  ({ devices := devices, eventLog := log },
   "🎬 Scene \x27" ++ sceneStr scene ++ "\x27 activated!\n✅ " ++
     String.intercalate "\n✅ " actions)

/-- One `log_event` application, uncurried over a (device id, action) pair:
the step function for a sequence of logged events. -/
def logStep (devices : Devices) (l : List Event) (p : String × String) : List Event :=
  log_event devices l p.1 p.2

/-- The event record a (device id, action) pair produces. -/
def evOf (devices : Devices) (p : String × String) : Event :=
  mkEvent devices p.1 p.2

/-- The string `sub` occurs contiguously inside `s`. -/
def containsSub (s sub : String) : Prop :=
  ∃ pre post, s = pre ++ sub ++ post

end HomeAutomation

namespace GradioClient

/-- The result of one `Runner.run` call: its `to_input_list()` serialization
(role/content pairs of every turn so far) and its `final_output` text. -/
structure AgentResult where
  toInputList : List (String × String)
  finalOutput : String
deriving DecidableEq

/-- The `input` argument passed to `Runner.run`: either the raw user text
(first message of a conversation) or a message list (continuation). -/
inductive AgentInput
  | text (s : String)
  | messages (ms : List (String × String))
deriving DecidableEq

/-- The observable configuration of the `Agent` object built by
`create_agent`: its instructions text and the session handles in its
`mcp_servers` list. -/
structure AgentCfg where
  instructions : String
  mcpServers : List Nat
deriving DecidableEq

/-- One Gradio chat-history entry. -/
structure ChatMsg where
  role : String
  content : String
  avatar : String
deriving DecidableEq

/-- The module-level globals of the client, plus a ghost `liveProcesses`
list recording the ids of spawned server child processes that have not
been terminated, and a `nextId` counter serving fresh ids (process ids,
session ids, `gen_trace_id` values). -/
structure ClientState where
  agent : Option AgentCfg
  mcpServer : Option Nat
  serverProcess : Option Nat
  liveProcesses : List Nat
  previousResult : Option AgentResult
  currentThreadId : Option Nat
  nextId : Nat
deriving DecidableEq

/-- State at module load: every global is `None`, no child process. -/
def initialClientState : ClientState :=
  { agent := none, mcpServer := none, serverProcess := none, liveProcesses := [],
    previousResult := none, currentThreadId := none, nextId := 0 }

/-- Instructions used when `mcp_servers` is non-empty. -/
def instructionsWithTools : String :=
  "Use the tools to answer the questions. Maintain context from previous messages in the conversation. You now have access to home automation tools - help users control their smart home devices."

/-- Instructions used when `mcp_servers` is empty or absent. -/
def instructionsNoTools : String :=
  "You are a helpful AI agent. You currently don\x27t have access to any tools or external systems. Explain to users that they need to start the MCP server to access home automation capabilities."

/-- `create_agent(mcp_servers)`: rebuild the global `agent` with the
instructions variant selected by whether the server list is empty
(Python truthiness of `mcp_servers`). -/
def create_agent (s : ClientState) (mcp_servers : List Nat) : ClientState :=
  { s with agent := some (
      { instructions := if mcp_servers = [] then instructionsNoTools else instructionsWithTools
        mcpServers := mcp_servers } : AgentCfg) }

/-- Success message of `start_mcp_server`. -/
def startedMsg : String :=
  "✅ MCP Server started! AI Agent now has access to home automation tools."

/-- `start_mcp_server` on its nominal path (the server file exists and the
child survives the two-second grace period).  The function spawns a fresh
child process and overwrites `server_process` — it never stops or
terminates a previously started instance — then opens a fresh
`MCPServerStdio` session, overwriting `mcp_server` likewise, and rebinds
the agent to the new session.  (Whatever the external `agents` library
manages internally for the session is not modelled; `liveProcesses` tracks
only the children this file spawns with `subprocess.Popen`.) -/
def start_mcp_server (s : ClientState) : ClientState × String :=
  let pid := s.nextId
  let s1 := { s with serverProcess := some pid
                     liveProcesses := s.liveProcesses ++ [pid]
                     nextId := pid + 1 }
  let sess := s1.nextId
  let s2 := { s1 with mcpServer := some sess, nextId := sess + 1 }
  (create_agent s2 [sess], startedMsg)

/-- Which steps of `stop_mcp_server` raise.  A raised exception propagates
to the function's single `except` handler, skipping every later step.
`waitTimesOut` covers `server_process.wait(timeout=5)` expiring; that one
is handled in place by escalating to `kill()`, so the child is dead either
way and the flag does not change the resulting state. -/
structure StopFailures where
  aexitRaises : Bool
  terminateRaises : Bool
  waitTimesOut : Bool
  createAgentRaises : Bool
deriving DecidableEq

/-- The all-success failure pattern. -/
def noFailures : StopFailures :=
  { aexitRaises := false, terminateRaises := false, waitTimesOut := false,
    createAgentRaises := false }

/-- The `except` reply of `stop_mcp_server` (the interpolated exception
text is abstracted; no property under study inspects it). -/
def stopErrorMsg : String := "❌ Error stopping server: "

/-- Success message of `stop_mcp_server`. -/
def stoppedMsg : String :=
  "🛑 MCP Server stopped. AI Agent now works without tools (general assistance only)."

/-- `stop_mcp_server`: close the session (clearing `mcp_server`), terminate
the tracked child if it is still alive (graceful signal, bounded wait,
kill on timeout), clear `server_process`, and rebind the agent with no
tools.  The whole body sits in one `try` with no `finally`: a step that
raises jumps straight to the handler, leaving every later assignment
unexecuted. -/
def stop_mcp_server (s : ClientState) (f : StopFailures) : ClientState × String :=
  if s.mcpServer.isSome && f.aexitRaises then
    (s, stopErrorMsg)
  else
    let s1 := { s with mcpServer := none }
    let live := match s1.serverProcess with
      | some pid => s1.liveProcesses.contains pid
      | none => false
    if live && f.terminateRaises then
      (s1, stopErrorMsg)
    else
      let s2 := if live then
          { s1 with liveProcesses := s1.liveProcesses.erase (s1.serverProcess.getD 0) }
        else s1
      let s3 := { s2 with serverProcess := none }
      if f.createAgentRaises then (s3, stopErrorMsg)
      else (create_agent s3 [], stoppedMsg)

/-- A start or stop action of the lifecycle buttons. -/
inductive LifecycleOp
  | start
  | stop
deriving DecidableEq

/-- Run a sequence of start/stop operations, each completing on its
nominal path. -/
def execOps : ClientState → List LifecycleOp → ClientState
  | s, [] => s
  | s, .start :: ops => execOps (start_mcp_server s).1 ops
  | s, .stop :: ops => execOps (stop_mcp_server s noFailures).1 ops

/-- Short-circuit reply when no agent is configured. -/
def notInitialisedMsg : String := "LLM not initialised. Please restart the application."

/-- A user chat-history entry. -/
def userMsg (content : String) : ChatMsg :=
  { role := "user", content := content, avatar := "👤" }

/-- An assistant chat-history entry. -/
def assistantMsg (content : String) : ChatMsg :=
  { role := "assistant", content := content, avatar := "🤖" }

/-- The `input` argument `process_user_input` builds for `Runner.run`:
the previous result's serialized turns plus the new user message when a
conversation is in flight, otherwise the raw user text. -/
def runnerInput (s : ClientState) (user_input : String) : AgentInput :=
  match s.previousResult with
  | some r => .messages (r.toInputList ++ [("user", user_input)])
  | none => .text user_input

/-- `process_user_input`, parameterized by the black-box agent runner
`run`.  Returns the updated state, the updated chat history, the textbox
reset string, and — as an observation of the effectful call — the input
passed to `Runner.run` (`none` when the turn short-circuited because no
agent is configured).  `gen_trace_id()` is modelled by the fresh-id
counter. -/
def process_user_input (run : AgentCfg → AgentInput → AgentResult) (s : ClientState)
    (user_input : String) (history : List ChatMsg) :
    ClientState × List ChatMsg × String × Option AgentInput :=
  match s.agent with
  | none =>
    (s, history ++ [userMsg user_input, assistantMsg notInitialisedMsg], "", none)
  | some a =>
    let s1 := if s.previousResult = none
      then { s with currentThreadId := some s.nextId, nextId := s.nextId + 1 }
      else s
    let input := runnerInput s1 user_input
    let result := run a input
    let s2 := { s1 with previousResult := some result }
    (s2, history ++ [userMsg user_input, assistantMsg result.finalOutput], "", some input)

/-- `reset_conversation`: drop the continuation state, generate a fresh
thread id, clear the chat pane, report success. -/
def reset_conversation (s : ClientState) : ClientState × List ChatMsg × String :=
  ({ s with previousResult := none, currentThreadId := some s.nextId, nextId := s.nextId + 1 },
   [], "🔄 Conversation reset successfully!")

end GradioClient

open HomeAutomation GradioClient

/-- C1: the claim says a start issued while a server is ready stops the
prior instance, so any start/stop sequence settles with at most one live
child process.  `start_mcp_server` contains no such stop: it overwrites
`server_process` and spawns anew, so two starts in a row leave two live
child processes, and a subsequent stop terminates only the tracked one,
leaving the first still alive. -/
theorem start_twice_leaves_two_live_processes :
    (execOps initialClientState [LifecycleOp.start, LifecycleOp.start]).liveProcesses.length
      = 2 ∧
    (execOps initialClientState
        [LifecycleOp.start, LifecycleOp.start, LifecycleOp.stop]).liveProcesses.length
      = 1 := by
  constructor <;> rfl

/-- The failure pattern in which `mcp_server.__aexit__` raises. -/
def aexitFailure : StopFailures :=
  { aexitRaises := true, terminateRaises := false, waitTimesOut := false,
    createAgentRaises := false }

/-- C2: the claim says `stop_mcp_server` always clears the handle state and
rebinds the agent with an empty tool list, whatever fails.  The body has no
`finally`: when the session close (`__aexit__`) raises, the function
returns from the `except` handler with `mcp_server` and `server_process`
still set, the child still alive, and the agent still bound to the
server's tools. -/
theorem stop_failure_leaves_stale_binding :
    (stop_mcp_server (start_mcp_server initialClientState).1 aexitFailure).1.mcpServer
      = some 1 ∧
    (stop_mcp_server (start_mcp_server initialClientState).1 aexitFailure).1.serverProcess
      = some 0 ∧
    (stop_mcp_server (start_mcp_server initialClientState).1 aexitFailure).1.liveProcesses
      = [0] ∧
    (stop_mcp_server (start_mcp_server initialClientState).1 aexitFailure).1.agent
      = some { instructions := instructionsWithTools, mcpServers := [1] } ∧
    (stop_mcp_server (start_mcp_server initialClientState).1 aexitFailure).2
      = stopErrorMsg := by
  exact ⟨rfl, rfl, rfl, rfl, rfl⟩

/-- C5: a tool call with an out-of-domain argument — a brightness outside
0–100 for `control_light`, a target outside 16–30 for `set_temperature` —
returns the fixed error reply and leaves the whole server state (devices
and event log alike) untouched. -/
theorem out_of_domain_rejected :
    (∀ (s : ServerState) (a : LightAction) (b : ℤ), ¬(0 ≤ b ∧ b ≤ 100) →
      control_light s a (some b) = (s, brightnessError)) ∧
    (∀ (s : ServerState) (t : ℚ), ¬(16 ≤ t ∧ t ≤ 30) →
      set_temperature s t = (s, temperatureError)) := by
  constructor
  · intro s a b hb
    simp only [control_light]
    rw [if_neg hb]
  · intro s t ht
    unfold set_temperature
    rw [if_pos ht]

/-- Witness for C5 at brightness 150 and target 45. -/
theorem out_of_domain_rejected_witness :
    control_light initialState LightAction.on (some 150) = (initialState, brightnessError) ∧
    set_temperature initialState 45 = (initialState, temperatureError) :=
  ⟨out_of_domain_rejected.1 initialState LightAction.on 150 (by decide),
   out_of_domain_rejected.2 initialState 45 (by decide)⟩

/-- C9: calling `control_light` with brightness 0 leaves the light off at
brightness 0, whatever the action argument and prior state: the trailing
`if brightness == 0` override forces the state to off. -/
theorem brightness_zero_forces_off :
    ∀ (s : ServerState) (a : LightAction),
      (control_light s a (some 0)).1.devices.living_room_light.state = "off" ∧
      (control_light s a (some 0)).1.devices.living_room_light.brightness = 0 := by
  intro s a
  cases a <;> exact ⟨rfl, rfl⟩

/-- C7: when no agent is configured the turn short-circuits: the state is
returned exactly as it was (continuation state and thread id included) and
the chat gains the fixed not-initialised reply; `Runner.run` is never
invoked. -/
theorem agent_unbound_short_circuit :
    ∀ (run : AgentCfg → AgentInput → AgentResult) (s : ClientState) (u : String)
      (history : List ChatMsg), s.agent = none →
      process_user_input run s u history =
        (s, history ++ [userMsg u, assistantMsg notInitialisedMsg], "", none) := by
  intro run s u history h
  unfold process_user_input
  rw [h]

/-- Witness for C7 at the module-load state, whose agent is unbound. -/
theorem agent_unbound_short_circuit_witness :
    process_user_input (fun _ _ => { toInputList := [], finalOutput := "" })
        initialClientState "hello" [] =
      (initialClientState, [userMsg "hello", assistantMsg notInitialisedMsg], "", none) :=
  agent_unbound_short_circuit (fun _ _ => { toInputList := [], finalOutput := "" })
    initialClientState "hello" [] rfl

/-- C10: the 16–30 range `set_temperature` enforces is not preserved by
every mutator: activating the away scene from the initial state drives the
thermostat target to 15, a value `set_temperature` itself rejects — a
reachable state outside the range. -/
theorem away_scene_breaks_thermostat_range :
    (activate_scene initialState Scene.away).1.devices.thermostat.target_temperature = 15 ∧
    ¬(16 ≤ (activate_scene initialState Scene.away).1.devices.thermostat.target_temperature ∧
      (activate_scene initialState Scene.away).1.devices.thermostat.target_temperature ≤ 30) ∧
    set_temperature (activate_scene initialState Scene.away).1 15 =
      ((activate_scene initialState Scene.away).1, temperatureError) := by
  refine ⟨rfl, by decide, ?_⟩
  unfold set_temperature
  rw [if_pos (by decide)]

/-- C3: `set_temperature 45` is rejected with the fixed error reply — whose
text contains "16" and "30" — and leaves the whole state unchanged;
`set_temperature 25` from the initial state sets the target to 25 and moves
the current temperature 20% of the gap toward it, rounded to one decimal
place: from 22 to 22.6. -/
theorem set_temperature_reject_and_accept :
    (∀ s : ServerState, set_temperature s 45 = (s, temperatureError)) ∧
    containsSub temperatureError "16" ∧
    containsSub temperatureError "30" ∧
    (set_temperature initialState 25).1.devices.thermostat.target_temperature = 25 ∧
    (set_temperature initialState 25).1.devices.thermostat.temperature =
      round1 (22 + (25 - 22) * (2/10)) ∧
    round1 (22 + (25 - 22) * (2/10)) = 22.6 := by
  refine ⟨?_, ⟨"❌ Error: Temperature must be between ", "°C and 30°C", rfl⟩,
    ⟨"❌ Error: Temperature must be between 16°C and ", "°C", rfl⟩, rfl, rfl, ?_⟩
  · intro s
    unfold set_temperature
    rw [if_pos (by decide)]
  · norm_num [round1, roundHalfEven]

/-- C6: after a reset the continuation state is empty, and the next turn
passes the raw user text alone to `Runner.run` — no message of any earlier
turn reaches the agent's input. -/
theorem reset_then_next_turn_has_empty_continuation :
    ∀ (run : AgentCfg → AgentInput → AgentResult) (s : ClientState) (u : String)
      (history : List ChatMsg) (a : AgentCfg), s.agent = some a →
      (reset_conversation s).1.previousResult = none ∧
      (process_user_input run (reset_conversation s).1 u history).2.2.2 =
        some (AgentInput.text u) := by
  intro run s u history a ha
  refine ⟨rfl, ?_⟩
  simp [process_user_input, reset_conversation, runnerInput, ha]

/-- Witness for C6: a reset on a freshly bound agent followed by "hi". -/
theorem reset_then_next_turn_witness :
    (process_user_input (fun _ _ => { toInputList := [], finalOutput := "" })
        (reset_conversation (create_agent initialClientState [])).1 "hi" []).2.2.2 =
      some (AgentInput.text "hi") :=
  (reset_then_next_turn_has_empty_continuation
    (fun _ _ => { toInputList := [], finalOutput := "" })
    (create_agent initialClientState []) "hi" []
    { instructions := instructionsNoTools, mcpServers := [] } rfl).2

/-- A run of `log_event` calls keeps exactly the trailing events, in
order: the accumulated log is the concatenation with everything but the
last ten dropped. -/
lemma foldl_logStep_drop (devices : Devices) (ps : List (String × String)) :
    ∀ l : List Event, l.length ≤ 10 →
      List.foldl (logStep devices) l ps =
        (l ++ ps.map (evOf devices)).drop (l.length + ps.length - 10) := by
  induction ps with
  | nil =>
    intro l hl
    simp [Nat.sub_eq_zero_of_le hl]
  | cons p ps ih =>
    intro l hl
    rw [List.foldl_cons]
    have hcast : l ++ evOf devices p :: List.map (evOf devices) ps
        = (l ++ [evOf devices p]) ++ List.map (evOf devices) ps := by
      rw [List.append_assoc, List.singleton_append]
    by_cases h : l.length ≤ 9
    · have hstep : logStep devices l p = l ++ [evOf devices p] := by
        simp only [logStep, log_event, evOf]
        rw [if_neg (by simp only [List.length_append, List.length_singleton]; omega)]
      rw [hstep, ih (l ++ [evOf devices p])
          (by simp only [List.length_append, List.length_singleton]; omega),
        List.map_cons, hcast, List.length_append, List.length_singleton, List.length_cons]
      have hidx : l.length + 1 + ps.length - 10 = l.length + (ps.length + 1) - 10 := by
        omega
      rw [hidx]
    · have hstep : logStep devices l p = (l ++ [evOf devices p]).drop 1 := by
        simp only [logStep, log_event, evOf]
        rw [if_pos (by simp only [List.length_append, List.length_singleton]; omega)]
      have hlen2 : ((l ++ [evOf devices p]).drop 1).length ≤ 10 := by
        simp only [List.length_drop, List.length_append, List.length_singleton]
        omega
      have hsplit : List.drop 1 ((l ++ [evOf devices p]) ++ List.map (evOf devices) ps)
          = List.drop 1 (l ++ [evOf devices p]) ++ List.map (evOf devices) ps := by
        rw [List.drop_append_eq_append_drop]
        have h0 : 1 - (l ++ [evOf devices p]).length = 0 := by
          simp only [List.length_append, List.length_singleton]
          omega
        rw [h0, List.drop_zero]
      have hlen3 : (List.drop 1 (l ++ [evOf devices p])).length = l.length := by
        simp only [List.length_drop, List.length_append, List.length_singleton]
        omega
      rw [hstep, ih _ hlen2, ← hsplit, List.drop_drop, hlen3, List.map_cons, hcast,
        List.length_cons]
      have hidx : 1 + (l.length + ps.length - 10) = l.length + (ps.length + 1) - 10 := by
        omega
      rw [hidx]

/-- C4: beginning from the empty log, any sequence of logged events
leaves at most ten entries; the log is exactly the trailing events of the
sequence in insertion order (FIFO eviction); in particular after eleven
insertions, the first event is absent — provided no later event equals it
— and the remaining ten stand in their original relative order. -/
theorem event_log_capacity_fifo :
    ∀ (devices : Devices) (ps : List (String × String)),
      (List.foldl (logStep devices) [] ps).length ≤ 10 ∧
      List.foldl (logStep devices) [] ps =
        (ps.map (evOf devices)).drop (ps.length - 10) ∧
      (∀ p rest, ps = p :: rest → rest.length = 10 →
        evOf devices p ∉ rest.map (evOf devices) →
        evOf devices p ∉ List.foldl (logStep devices) [] ps ∧
        List.foldl (logStep devices) [] ps = rest.map (evOf devices)) := by
  intro devices ps
  have hmain := foldl_logStep_drop devices ps [] (by simp)
  simp only [List.nil_append, List.length_nil, Nat.zero_add] at hmain
  refine ⟨?_, hmain, ?_⟩
  · rw [hmain, List.length_drop, List.length_map]
    omega
  · intro p rest hps hrest hnot
    subst hps
    have heq : List.foldl (logStep devices) [] (p :: rest) = rest.map (evOf devices) := by
      rw [hmain]
      simp [hrest]
    exact ⟨by rw [heq]; exact hnot, heq⟩

/-- Ten pairwise distinct (device id, action) pairs. -/
def tenEvents : List (String × String) :=
  [("d1", "a1"), ("d2", "a2"), ("d3", "a3"), ("d4", "a4"), ("d5", "a5"),
   ("d6", "a6"), ("d7", "a7"), ("d8", "a8"), ("d9", "a9"), ("d10", "a10")]

/-- Witness for C4: eleven distinct insertions evict exactly the first. -/
theorem event_log_capacity_fifo_witness :
    evOf initialDevices ("d0", "a0") ∉
      List.foldl (logStep initialDevices) [] (("d0", "a0") :: tenEvents) ∧
    List.foldl (logStep initialDevices) [] (("d0", "a0") :: tenEvents) =
      tenEvents.map (evOf initialDevices) :=
  (event_log_capacity_fifo initialDevices (("d0", "a0") :: tenEvents)).2.2
    ("d0", "a0") tenEvents rfl (by decide) (by decide)

/-- C8: every successful mutation appends exactly one entry — the
resulting log is a single `log_event` application to the prior log.  The
scene mutator touches three devices yet contributes exactly one
`"scene_control"` entry. -/
theorem successful_mutation_logs_one_event :
    ∀ s : ServerState,
      (∀ a : LightAction, ∃ act,
        (control_light s a none).1.eventLog =
          log_event (control_light s a none).1.devices s.eventLog
            "living_room_light" act) ∧
      (∀ (a : LightAction) (b : ℤ), 0 ≤ b ∧ b ≤ 100 → ∃ act,
        (control_light s a (some b)).1.eventLog =
          log_event (control_light s a (some b)).1.devices s.eventLog
            "living_room_light" act) ∧
      (∀ t : ℚ, 16 ≤ t ∧ t ≤ 30 → ∃ act,
        (set_temperature s t).1.eventLog =
          log_event (set_temperature s t).1.devices s.eventLog "thermostat" act) ∧
      (∀ a : LockAction,
        (control_door_lock s a).1.eventLog =
          log_event (control_door_lock s a).1.devices s.eventLog "front_door"
            ("Door " ++ lockActionStr a ++ "ed")) ∧
      (∀ sc : Scene,
        (activate_scene s sc).1.eventLog =
          log_event (activate_scene s sc).1.devices s.eventLog "scene_control"
            ("Scene \x27" ++ sceneStr sc ++ "\x27 activated")) := by
  intro s
  refine ⟨?_, ?_, ?_, ?_, ?_⟩
  · intro a
    cases a <;> exact ⟨_, rfl⟩
  · intro a b hb
    simp only [control_light]
    rw [if_pos hb]
    cases a <;> exact ⟨_, rfl⟩
  · intro t ht
    unfold set_temperature
    rw [if_neg (not_not_intro ht)]
    exact ⟨_, rfl⟩
  · intro a
    cases a <;> rfl
  · intro sc
    cases sc <;> rfl

/-- Witness for C8: a valid light call and a valid thermostat call from
the initial state. -/
theorem successful_mutation_logs_one_event_witness :
    (∃ act, (control_light initialState LightAction.on (some 70)).1.eventLog =
      log_event (control_light initialState LightAction.on (some 70)).1.devices
        initialState.eventLog "living_room_light" act) ∧
    (∃ act, (set_temperature initialState 20).1.eventLog =
      log_event (set_temperature initialState 20).1.devices
        initialState.eventLog "thermostat" act) :=
  ⟨(successful_mutation_logs_one_event initialState).2.1 LightAction.on 70 (by decide),
   (successful_mutation_logs_one_event initialState).2.2.1 20 (by decide)⟩
